import Mathlib

/-!
Shallow embedding of the `minimal` Go library (a thin CRUD layer over the
Echo web framework and the Gorm ORM) and proofs about its behaviour.

The embedding models:
  * the error values of `resource.go` as an inductive `GoError`;
  * the `res` response-envelope package (`resModel`, `Ok`, `OkCode`,
    `FailCode`, `Fail`);
  * `strconv.Atoi` and Go's `uint(...)` conversion (two's-complement
    wraparound modulo 2^64);
  * the `Resource[T]` structure, its `Register` method (which installs
    default query functions only for nil hooks, records the installed
    routes, and triggers auto-migration when the database is initialized)
    and its five HTTP handlers `getAll`, `getById`, `writeById`, `create`
    and `deleteById`;
  * `Server.Init` (database setup / migration dispatch on `Config.DSN`)
    and `setup.Start` (plain HTTP versus ACME auto-TLS dispatch).

External library behaviour (gorm queries, request binding, struct
patching) is modelled by explicit oracle parameters: a `DbConn` record of
query outcomes, a `bindResult` field on the request context, and a
`patchFn` function standing for `patch.Struct`. Database writes performed
by a handler are returned as an explicit list of `DbOp` operations.
-/

namespace Minimal

/-- Error values of the Go code: the six `errors.New` values declared at the
top of resource.go, gorm's `ErrRecordNotFound`, and arbitrary other errors. -/
inductive GoError where
  | noResourceAccess
  | noResourceFound
  | database
  | noBindType
  | invalidData
  | invalidID
  | gormRecordNotFound
  | other (msg : String)
deriving Repr, DecidableEq

/-- Message text of each error, as produced by `errors.New` in the source. -/
def GoError.text : GoError → String
  | .noResourceAccess => "no resource access"
  | .noResourceFound => "no resource found"
  | .database => "database problem"
  | .noBindType => "unable to handle this request"
  | .invalidData => "bad data"
  | .invalidID => "bad id"
  | .gormRecordNotFound => "record not found"
  | .other msg => msg

/-- Result of a gorm call: the `Error` field of the returned `*gorm.DB`. -/
structure Tx where
  error : Option GoError
deriving Repr, DecidableEq

/-- Oracle for the gorm database connection, giving the outcome of each kind
of call the handlers make. `firstById` returns the struct value left in the
out-parameter together with the transaction error (gorm leaves the zero
value on a record-not-found miss). -/
structure DbConn (T : Type) where
  firstById : Nat → T × Tx
  findAll : List T × Tx
  saveTx : T → Tx
  createTx : T → Tx
  deleteTx : T → Tx

/-- A write operation performed against the database during one request. -/
inductive DbOp (T : Type) where
  | save (x : T)
  | create (x : T)
  | delete (x : T)
deriving Repr, DecidableEq

/-- Database connection whose table contents are the association list
`recs` (id, record). `First` on a present id succeeds; on an absent id it
leaves the zero value and reports `ErrRecordNotFound`. Writes succeed. -/
def dbFromRecords [Inhabited T] (recs : List (Nat × T)) : DbConn T where
  firstById := fun id =>
    match recs.find? (fun p => p.1 = id) with
    | some p => (p.2, ⟨none⟩)
    | none => (default, ⟨some GoError.gormRecordNotFound⟩)
  findAll := (recs.map (fun p => p.2), ⟨none⟩)
  saveTx := fun _ => ⟨none⟩
  createTx := fun _ => ⟨none⟩
  deleteTx := fun _ => ⟨none⟩

/-- The parts of the `echo.Context` the handlers consult: the `:id` path
parameter and the outcome of `c.Bind` (`some dto` on success, `none` on a
binding error). -/
structure Ctx (Dto : Type) where
  paramId : String := ""
  bindResult : Option Dto := none

/-- Data part of a response envelope: a list (list-all), a single entity
(get-by-id), or Go `nil` (failure responses). -/
inductive Payload (T : Type) where
  | list (xs : List T)
  | item (x : T)
  | nil
deriving Repr, DecidableEq

/-- The `ModelResponse` envelope of the `res` package. -/
structure Envelope (T : Type) where
  success : Bool
  message : String
  data : Payload T
deriving Repr, DecidableEq

/-- Observable outcome of one handler invocation: a JSON envelope with a
status code, a bare `c.NoContent` status, a raw Go error returned to the
framework (echo then renders its generic error page), or a panic from
calling a nil function field. -/
inductive HttpOut (T : Type) where
  | json (code : Nat) (body : Envelope T)
  | noContent (code : Nat)
  | rawError (e : GoError)
  | nilCall
deriving Repr, DecidableEq

namespace Res

/-- Embedding of `res.resModel`: builds the envelope; the message is the
error text when an error is supplied and empty otherwise. -/
def resModel (success : Bool) (model : Payload T) (message : Option GoError) : Envelope T :=
  { success := success
    message := match message with
      | none => ""
      | some e => e.text
    data := model }

/-- Embedding of `res.Ok`: HTTP 200 with a success envelope. -/
def Ok (model : Payload T) : HttpOut T :=
  HttpOut.json 200 (resModel true model none)

/-- Embedding of `res.OkCode`: the given code with a success envelope. -/
def OkCode (code : Nat) (model : Payload T) : HttpOut T :=
  HttpOut.json code (resModel true model none)

/-- Embedding of `res.FailCode`: the given code with a failure envelope
carrying nil data and the error message. -/
def FailCode (code : Nat) (message : GoError) : HttpOut T :=
  HttpOut.json code (resModel false Payload.nil (some message))

/-- Embedding of `res.Fail`: `FailCode` with status 500. -/
def Fail (message : GoError) : HttpOut T :=
  HttpOut.json 500 (resModel false Payload.nil (some message))

end Res

/-- Numeric value of a list of decimal digit characters. -/
def digitsVal (ds : List Char) : Nat :=
  ds.foldl (fun a c => a * 10 + (c.toNat - 48)) 0

/-- Embedding of `strconv.Atoi` on a 64-bit platform: an optional sign
followed by at least one digit, with the value required to fit in `int64`
(out-of-range input makes `Atoi` return an error). `none` models a non-nil
error return. -/
def atoi (s : String) : Option Int :=
  match s.data with
  | [] => none
  | c :: rest =>
    let neg := c = '-'
    let ds := if c = '-' ∨ c = '+' then rest else c :: rest
    if ds.isEmpty then none
    else if ds.all Char.isDigit then
      let v : Int := if neg then -(digitsVal ds : Int) else (digitsVal ds : Int)
      if -(2 ^ 63) ≤ v ∧ v < 2 ^ 63 then some v else none
    else none

/-- Go's `uint(i)` conversion of a signed 64-bit value: reduction modulo
2^64 (two's-complement wraparound). -/
def intToUint (i : Int) : Nat :=
  (i % (2 : Int) ^ 64).toNat

/-- Query function type for the list-all operation, with the performed
database writes made explicit. -/
abbrev ListAllQ (T Dto : Type) :=
  Ctx Dto → DbConn T → Except GoError (List T) × List (DbOp T)

/-- Query function type for the list-by-id operation. -/
abbrev ListByIdQ (T Dto : Type) :=
  Ctx Dto → DbConn T → Nat → Except GoError T × List (DbOp T)

/-- Query function type for the write-by-id operation. -/
abbrev WriteByIdQ (T Dto : Type) :=
  Ctx Dto → DbConn T → Nat → Dto → Except GoError Unit × List (DbOp T)

/-- Query function type for the delete-by-id operation (takes the already
looked-up entity, as in the current resource.go). -/
abbrev DeleteByIdQ (T Dto : Type) :=
  Ctx Dto → DbConn T → T → Except GoError Unit × List (DbOp T)

/-- Embedding of the `Resource[T]` struct: overridable hooks are `Option`
fields (`none` models a nil Go function or a nil bind type). Middlewares
are abstract tokens. `Dto` is the bind/DTO type. -/
structure Resource (T : Type) (Dto : Type) where
  name : String := ""
  canListAll : Option (Ctx Dto → Bool) := none
  listAllQuery : Option (ListAllQ T Dto) := none
  canListById : Option (Ctx Dto → T → Bool) := none
  listByIdQuery : Option (ListByIdQ T Dto) := none
  canWriteById : Option (Ctx Dto → T → Bool) := none
  writeBindType : Option Unit := none
  writeByIdQuery : Option (WriteByIdQ T Dto) := none
  canCreate : Option (Ctx Dto → Bool) := none
  createBindType : Option Unit := none
  createTransformer : Option (Ctx Dto → Except GoError (Option T)) := none
  canDeleteById : Option (Ctx Dto → T → Bool) := none
  deleteByIdQuery : Option (DeleteByIdQ T Dto) := none
  middlewares : List Nat := []

/-- Default list-all query installed by `Register`: run `Find`; any error
becomes `ErrorNoResourceFound`. -/
def defaultListAllQuery : ListAllQ T Dto := fun _c q =>
  let ft := q.findAll
  match ft.2.error with
  | some _ => (Except.error GoError.noResourceFound, [])
  | none => (Except.ok ft.1, [])

/-- Default list-by-id query installed by `Register`: `First` by id, then
the `canListById` access check (on the looked-up value, which is the zero
value on a miss), then the record-not-found translation. -/
def defaultListByIdQuery [Inhabited T] (canListById : Option (Ctx Dto → T → Bool)) :
    ListByIdQ T Dto := fun c q id =>
  let rt := q.firstById id
  let denied := match canListById with
    | some p => !(p c rt.1)
    | none => false
  if denied then (Except.error GoError.noResourceAccess, [])
  else
    match rt.2.error with
    | some e =>
      if e = GoError.gormRecordNotFound then (Except.error GoError.noResourceFound, [])
      else (Except.error e, [])
    | none => (Except.ok rt.1, [])

/-- Default write-by-id query installed by `Register`: `First` by id, the
`canWriteById` access check, `patch.Struct` onto the looked-up value, then
`Save` of the patched value, and only afterwards the check of the lookup
error (which is returned raw, without translation to
`ErrorNoResourceFound`). -/
def defaultWriteByIdQuery [Inhabited T] (canWriteById : Option (Ctx Dto → T → Bool))
    (patchFn : T → Dto → Option T) : WriteByIdQ T Dto := fun c q id nw =>
  let rt := q.firstById id
  let denied := match canWriteById with
    | some p => !(p c rt.1)
    | none => false
  if denied then (Except.error GoError.noResourceAccess, [])
  else
    match patchFn rt.1 nw with
    | none => (Except.error GoError.invalidData, [])
    | some patched =>
      let tx2 := q.saveTx patched
      match tx2.error with
      | some e => (Except.error e, [DbOp.save patched])
      | none =>
        match rt.2.error with
        | some e => (Except.error e, [DbOp.save patched])
        | none => (Except.ok (), [DbOp.save patched])

/-- Default delete-by-id query installed by `Register`: `Delete` the given
entity, then translate a record-not-found error of the transaction. -/
def defaultDeleteByIdQuery : DeleteByIdQ T Dto := fun _c q entity =>
  let tx := q.deleteTx entity
  match tx.error with
  | some e =>
    if e = GoError.gormRecordNotFound then
      (Except.error GoError.noResourceFound, [DbOp.delete entity])
    else (Except.error e, [DbOp.delete entity])
  | none => (Except.ok (), [DbOp.delete entity])

/-- HTTP method of a registered route. -/
inductive Method where
  | get
  | put
  | post
  | delete
deriving Repr, DecidableEq

/-- A route added by `Register`: method, group prefix (the resource name),
path suffix, and the attached middlewares. -/
structure Route where
  method : Method
  group : String
  path : String
  middlewares : List Nat
deriving Repr, DecidableEq

/-- Observable outcome of `Resource.Register`: the updated resource, whether
auto-migration of the model type was triggered, and the routes added. -/
structure RegisterResult (T Dto : Type) where
  resource : Resource T Dto
  migrated : Bool
  routes : List Route

/-- Embedding of `Resource.Register`: installs each default query function
only when the corresponding field is nil, triggers auto-migration exactly
when the database is initialized, and adds the five CRUD routes under the
group named after the resource. `patchFn` stands for the external
`patch.Struct` library function captured by the default write query. -/
def Resource.Register [Inhabited T] (r : Resource T Dto) (patchFn : T → Dto → Option T)
    (dbInitialized : Bool) : RegisterResult T Dto :=
  let la := match r.listAllQuery with
    | some f => f
    | none => defaultListAllQuery
  let li := match r.listByIdQuery with
    | some f => f
    | none => defaultListByIdQuery r.canListById
  let wi := match r.writeByIdQuery with
    | some f => f
    | none => defaultWriteByIdQuery r.canWriteById patchFn
  let de := match r.deleteByIdQuery with
    | some f => f
    | none => defaultDeleteByIdQuery
  { resource :=
      { r with
        listAllQuery := some la
        listByIdQuery := some li
        writeByIdQuery := some wi
        deleteByIdQuery := some de }
    migrated := dbInitialized
    routes :=
      [ ⟨Method.get, r.name, "", r.middlewares⟩,
        ⟨Method.get, r.name, "/:id", r.middlewares⟩,
        ⟨Method.put, r.name, "/:id", r.middlewares⟩,
        ⟨Method.post, r.name, "", r.middlewares⟩,
        ⟨Method.delete, r.name, "/:id", r.middlewares⟩ ] }

/-- Embedding of the `getAll` handler. -/
def Resource.getAll (r : Resource T Dto) (c : Ctx Dto) (db : DbConn T) :
    HttpOut T × List (DbOp T) :=
  let denied := match r.canListAll with
    | some p => !(p c)
    | none => false
  if denied then (Res.FailCode 403 GoError.noResourceAccess, [])
  else
    match r.listAllQuery with
    | none => (HttpOut.nilCall, [])
    | some f =>
      match f c db with
      | (Except.error e, ops) =>
        if e = GoError.noResourceFound then (Res.FailCode 404 e, ops)
        else (Res.FailCode 500 GoError.database, ops)
      | (Except.ok m, ops) => (Res.Ok (Payload.list m), ops)

/-- Embedding of the `getById` handler. -/
def Resource.getById (r : Resource T Dto) (c : Ctx Dto) (db : DbConn T) :
    HttpOut T × List (DbOp T) :=
  match atoi c.paramId with
  | none => (Res.FailCode 400 GoError.invalidID, [])
  | some i =>
    match r.listByIdQuery with
    | none => (HttpOut.nilCall, [])
    | some f =>
      match f c db (intToUint i) with
      | (Except.error e, ops) =>
        if e = GoError.noResourceFound then
          (Res.FailCode 404 GoError.noResourceFound, ops)
        else if e = GoError.noResourceAccess then
          (Res.FailCode 403 GoError.noResourceAccess, ops)
        else (Res.FailCode 500 GoError.database, ops)
      | (Except.ok x, ops) => (Res.Ok (Payload.item x), ops)

/-- Embedding of the `writeById` handler: bind-type check, request binding,
id parsing, then the write query with its error mapping. -/
def Resource.writeById (r : Resource T Dto) (c : Ctx Dto) (db : DbConn T) :
    HttpOut T × List (DbOp T) :=
  match r.writeBindType with
  | none => (Res.FailCode 500 GoError.noBindType, [])
  | some _ =>
    match c.bindResult with
    | none => (Res.FailCode 400 GoError.invalidData, [])
    | some dto =>
      match atoi c.paramId with
      | none => (Res.FailCode 400 GoError.invalidID, [])
      | some i =>
        match r.writeByIdQuery with
        | none => (HttpOut.nilCall, [])
        | some f =>
          match f c db (intToUint i) dto with
          | (Except.error e, ops) =>
            if e = GoError.noResourceFound then
              (Res.FailCode 404 GoError.noResourceFound, ops)
            else if e = GoError.noResourceAccess then
              (Res.FailCode 403 GoError.noResourceAccess, ops)
            else (Res.FailCode 500 GoError.database, ops)
          | (Except.ok _, ops) => (HttpOut.noContent 200, ops)

/-- Embedding of the `create` handler: access check, then either the
create-transformer path or the bind-and-patch path, then `Create`. -/
def Resource.create [Inhabited T] (r : Resource T Dto) (patchFn : T → Dto → Option T)
    (c : Ctx Dto) (db : DbConn T) : HttpOut T × List (DbOp T) :=
  let denied := match r.canCreate with
    | some p => !(p c)
    | none => false
  if denied then (Res.FailCode 403 GoError.noResourceAccess, [])
  else
    let modelRes : Except (HttpOut T) T :=
      match r.createTransformer with
      | some tf =>
        match tf c with
        | Except.error e => Except.error (Res.FailCode 400 e)
        | Except.ok (some m) => Except.ok m
        | Except.ok none => Except.ok default
      | none =>
        match r.createBindType with
        | none => Except.error (Res.FailCode 500 GoError.noBindType)
        | some _ =>
          match c.bindResult with
          | none => Except.error (Res.FailCode 400 GoError.invalidData)
          | some dto =>
            match patchFn default dto with
            | none => Except.error (Res.FailCode 400 GoError.invalidData)
            | some m => Except.ok m
    match modelRes with
    | Except.error out => (out, [])
    | Except.ok model =>
      let tx := db.createTx model
      match tx.error with
      | some _ => (Res.FailCode 500 GoError.database, [DbOp.create model])
      | none => (HttpOut.noContent 200, [DbOp.create model])

/-- Embedding of the `deleteById` handler: id parsing, `First` lookup, the
`canDeleteById` check (whose failure returns the raw error to the
framework), then the delete query with its error mapping. -/
def Resource.deleteById [Inhabited T] (r : Resource T Dto) (c : Ctx Dto) (db : DbConn T) :
    HttpOut T × List (DbOp T) :=
  match atoi c.paramId with
  | none => (Res.FailCode 400 GoError.invalidID, [])
  | some i =>
    let rt := db.firstById (intToUint i)
    let denied := match r.canDeleteById with
      | some p => !(p c rt.1)
      | none => false
    if denied then (HttpOut.rawError GoError.noResourceAccess, [])
    else
      match r.deleteByIdQuery with
      | none => (HttpOut.nilCall, [])
      | some f =>
        match f c db rt.1 with
        | (Except.error e, ops) =>
          if e = GoError.noResourceFound then
            (Res.FailCode 404 GoError.noResourceFound, ops)
          else if e = GoError.noResourceAccess then
            (Res.FailCode 403 GoError.noResourceAccess, ops)
          else (Res.FailCode 500 GoError.database, ops)
        | (Except.ok _, ops) => (HttpOut.noContent 200, ops)

/-- Embedding of `Resource.OverrideListAllQuery`. -/
def Resource.OverrideListAllQuery (r : Resource T Dto) (f : ListAllQ T Dto) : Resource T Dto :=
  { r with listAllQuery := some f }

/-- Embedding of `Resource.OverrideListByIdQuery`. -/
def Resource.OverrideListByIdQuery (r : Resource T Dto) (f : ListByIdQ T Dto) : Resource T Dto :=
  { r with listByIdQuery := some f }

/-- Embedding of `Resource.OverrideDeleteByIdQuery`. -/
def Resource.OverrideDeleteByIdQuery (r : Resource T Dto) (f : DeleteByIdQ T Dto) : Resource T Dto :=
  { r with deleteByIdQuery := some f }

/-- Embedding of `Resource.CanListAll`. -/
def Resource.CanListAll (r : Resource T Dto) (p : Ctx Dto → Bool) : Resource T Dto :=
  { r with canListAll := some p }

/-- Embedding of `Resource.CanListById`. -/
def Resource.CanListById (r : Resource T Dto) (p : Ctx Dto → T → Bool) : Resource T Dto :=
  { r with canListById := some p }

/-- Embedding of `Resource.CanWriteById`. -/
def Resource.CanWriteById (r : Resource T Dto) (p : Ctx Dto → T → Bool) : Resource T Dto :=
  { r with canWriteById := some p }

/-- Embedding of `Resource.CanDeleteById`. -/
def Resource.CanDeleteById (r : Resource T Dto) (p : Ctx Dto → T → Bool) : Resource T Dto :=
  { r with canDeleteById := some p }

/-- Embedding of `Resource.SetWriteBindType`. -/
def Resource.SetWriteBindType (r : Resource T Dto) : Resource T Dto :=
  { r with writeBindType := some () }

/-- Embedding of `Resource.SetCreateBindType`. -/
def Resource.SetCreateBindType (r : Resource T Dto) : Resource T Dto :=
  { r with createBindType := some () }

/-- Embedding of `setup.Config`. -/
structure Config where
  DSN : String := ""
  HttpPort : Nat := 0
  AutoTLS : Bool := false
  CertKeyPath : String := ""
  CertPrivateKeyPath : String := ""
  FriendlyLogging : Bool := false
  Domains : List String := []

/-- What `setup.Start` launches: a plain HTTP listener, or an HTTPS server
using ACME autocert with the given host whitelist and read timeout in
seconds. -/
inductive StartAction where
  | insecure (address : String)
  | autoTLS (address : String) (hostPolicy : List String) (readTimeoutSeconds : Nat)
      (certFile : String) (keyFile : String)
deriving Repr, DecidableEq

/-- Embedding of `setup.startInsecure`. -/
def startInsecure (address : String) : StartAction :=
  StartAction.insecure address

/-- Embedding of `setup.startAutoTLS`: autocert manager with
`HostWhitelist(domains...)` and a server with a 30-second read timeout. -/
def startAutoTLS (address cert pkey : String) (domains : List String) : StartAction :=
  StartAction.autoTLS address domains 30 cert pkey

/-- Embedding of `setup.Start`: dispatch on the autoTls flag. -/
def Start (address : String) (autoTls : Bool) (cert pkey : String)
    (domains : List String) : StartAction :=
  if autoTls then startAutoTLS address cert pkey domains
  else startInsecure address

/-- Embedding of the `Server` struct (providers abstracted to a count). -/
structure Server (α : Type) where
  providers : Nat := 0
  models : List α := []
  config : Config := {}

/-- Embedding of `minimal.New`. -/
def New (config : Config) (providers : Nat) (models : List α) : Server α :=
  { providers := providers, models := models, config := config }

/-- Observable outcome of `Server.Init`: whether database setup was
attempted and succeeded, the models migrated, whether `log.Fatal` was hit,
and the `setup.Start` action reached. -/
structure InitResult (α : Type) where
  dbSetupAttempted : Bool
  dbInitialized : Bool
  migratedModels : List α
  fatal : Bool
  startAction : Option StartAction

/-- The address string `fmt.Sprintf(":%d", port)`. -/
def addressOf (port : Nat) : String :=
  ":" ++ toString port

/-- Embedding of `Server.Init`: when `DSN` is non-empty, initialize the
database (`dbConnectOk` is the connection outcome; failure hits
`log.Fatal`) and auto-migrate every model; when `DSN` is empty, skip
database setup entirely; then start the server. -/
def Server.Init (s : Server α) (dbConnectOk : Bool) : InitResult α :=
  let started := Start (addressOf s.config.HttpPort) s.config.AutoTLS
    s.config.CertKeyPath s.config.CertPrivateKeyPath s.config.Domains
  if s.config.DSN ≠ "" then
    if dbConnectOk then
      { dbSetupAttempted := true
        dbInitialized := true
        migratedModels := s.models
        fatal := false
        startAction := some started }
    else
      { dbSetupAttempted := true
        dbInitialized := false
        migratedModels := []
        fatal := true
        startAction := none }
  else
    { dbSetupAttempted := false
      dbInitialized := false
      migratedModels := []
      fatal := false
      startAction := some started }

/-- Patch oracle that always succeeds, leaving the target unchanged. -/
def patchKeep : Nat → Unit → Option Nat := fun t _ => some t

/-- Patch oracle that always fails, modelling a `patch.Struct` error. -/
def patchRejectAll : Nat → Unit → Option Nat := fun _ _ => none

/-- A resource with every hook left nil. -/
def emptyRes : Resource Nat Unit := {}

/-- Request context with id parameter 1 and a successful bind. -/
def ctxId1 : Ctx Unit := { paramId := "1", bindResult := some () }

/-- Request context whose id parameter is not an integer. -/
def badIdCtx : Ctx Unit := { paramId := "x", bindResult := some () }

/-- Database holding one record: id 1 maps to the value 5. -/
def dbOne : DbConn Nat := dbFromRecords [(1, 5)]

/-- Database holding no records. -/
def dbEmpty : DbConn Nat := dbFromRecords []

/-- Overriding list-all query that reports a no-access error. -/
def accessErrQ : ListAllQ Nat Unit := fun _ _ =>
  (Except.error GoError.noResourceAccess, [])

/-- Resource whose list-all query is overridden by `accessErrQ`. -/
def accessErrRes : Resource Nat Unit := emptyRes.OverrideListAllQuery accessErrQ

/-- Registration of a resource with a write bind type whose patch oracle
always fails. -/
def patchFailReg : RegisterResult Nat Unit :=
  (emptyRes.SetWriteBindType).Register patchRejectAll true

/-- Registration of a resource whose delete predicate rejects everything. -/
def denyDeleteReg : RegisterResult Nat Unit :=
  (emptyRes.CanDeleteById (fun _ _ => false)).Register patchKeep true

/-- Registration of a resource with a write bind type and an always
succeeding patch oracle. -/
def writeMissReg : RegisterResult Nat Unit :=
  (emptyRes.SetWriteBindType).Register patchKeep true

/-- Resource carrying the default write query (no access predicate) and a
write bind type. -/
def writeDefaultRes : Resource Nat Unit :=
  { writeBindType := some ()
    writeByIdQuery := some (defaultWriteByIdQuery none patchKeep) }

/-- Resource with the default list-by-id query and a predicate that rejects
every entity, including the zero value. -/
def denyZeroRes : Resource Nat Unit :=
  { listByIdQuery := some (defaultListByIdQuery (some (fun _ _ => false))) }

/-- Claim C1 (amended): the error-to-status mapping of all five handlers. A
query error of ErrorNoResourceFound yields 404; in the by-id endpoints
(get-by-id, update, delete) a query error of ErrorNoResourceAccess yields
403, while the list-all endpoint maps every query error other than
ErrorNoResourceFound (including ErrorNoResourceAccess) to 500 with
ErrorDatabase; an id that fails integer parsing yields 400 with
ErrorInvalidID (get-by-id, update, delete); a request-binding failure
yields 400 with ErrorInvalidData (update, create); a missing bind type
yields 500 with ErrorNoBindType (update, create); every other query or
database error yields 500 with ErrorDatabase — in particular a
struct-patching failure yields 400 ErrorInvalidData in create, but in
update the default write query reports it as ErrorInvalidData and the
handler maps that to 500 with ErrorDatabase. -/
theorem claim_C1 {T Dto : Type} [Inhabited T] (r : Resource T Dto) (c : Ctx Dto)
    (db : DbConn T) (e : GoError) (patchFn : T → Dto → Option T) :
    (∀ f ops, r.canListAll = none → r.listAllQuery = some f →
      f c db = (Except.error e, ops) →
      (r.getAll c db).1 =
        if e = GoError.noResourceFound then Res.FailCode 404 e
        else Res.FailCode 500 GoError.database)
  ∧ (atoi c.paramId = none →
      (r.getById c db).1 = Res.FailCode 400 GoError.invalidID)
  ∧ (∀ f i ops, atoi c.paramId = some i → r.listByIdQuery = some f →
      f c db (intToUint i) = (Except.error e, ops) →
      (r.getById c db).1 =
        if e = GoError.noResourceFound then Res.FailCode 404 GoError.noResourceFound
        else if e = GoError.noResourceAccess then Res.FailCode 403 GoError.noResourceAccess
        else Res.FailCode 500 GoError.database)
  ∧ (r.writeBindType = none →
      (r.writeById c db).1 = Res.FailCode 500 GoError.noBindType)
  ∧ (r.writeBindType = some () → c.bindResult = none →
      (r.writeById c db).1 = Res.FailCode 400 GoError.invalidData)
  ∧ (∀ dto, r.writeBindType = some () → c.bindResult = some dto →
      atoi c.paramId = none →
      (r.writeById c db).1 = Res.FailCode 400 GoError.invalidID)
  ∧ (∀ f i dto ops, r.writeBindType = some () → c.bindResult = some dto →
      atoi c.paramId = some i → r.writeByIdQuery = some f →
      f c db (intToUint i) dto = (Except.error e, ops) →
      (r.writeById c db).1 =
        if e = GoError.noResourceFound then Res.FailCode 404 GoError.noResourceFound
        else if e = GoError.noResourceAccess then Res.FailCode 403 GoError.noResourceAccess
        else Res.FailCode 500 GoError.database)
  ∧ (∀ nw i, patchFn (db.firstById i).1 nw = none →
      (defaultWriteByIdQuery none patchFn c db i nw).1
        = Except.error GoError.invalidData)
  ∧ (r.canCreate = none → r.createTransformer = none → r.createBindType = none →
      (r.create patchFn c db).1 = Res.FailCode 500 GoError.noBindType)
  ∧ (r.canCreate = none → r.createTransformer = none →
      r.createBindType = some () → c.bindResult = none →
      (r.create patchFn c db).1 = Res.FailCode 400 GoError.invalidData)
  ∧ (∀ dto, r.canCreate = none → r.createTransformer = none →
      r.createBindType = some () → c.bindResult = some dto →
      patchFn default dto = none →
      (r.create patchFn c db).1 = Res.FailCode 400 GoError.invalidData)
  ∧ (∀ dto m, r.canCreate = none → r.createTransformer = none →
      r.createBindType = some () → c.bindResult = some dto →
      patchFn default dto = some m → db.createTx m = ⟨some e⟩ →
      (r.create patchFn c db).1 = Res.FailCode 500 GoError.database)
  ∧ (atoi c.paramId = none →
      (r.deleteById c db).1 = Res.FailCode 400 GoError.invalidID)
  ∧ (∀ f i ops, atoi c.paramId = some i → r.canDeleteById = none →
      r.deleteByIdQuery = some f →
      f c db (db.firstById (intToUint i)).1 = (Except.error e, ops) →
      (r.deleteById c db).1 =
        if e = GoError.noResourceFound then Res.FailCode 404 GoError.noResourceFound
        else if e = GoError.noResourceAccess then Res.FailCode 403 GoError.noResourceAccess
        else Res.FailCode 500 GoError.database) := by
  refine ⟨?_, ?_, ?_, ?_, ?_, ?_, ?_, ?_, ?_, ?_, ?_, ?_, ?_, ?_⟩
  · intro f ops h1 h2 h3
    by_cases he : e = GoError.noResourceFound <;>
      simp [Resource.getAll, h1, h2, h3, he]
  · intro h
    simp [Resource.getById, h]
  · intro f i ops h1 h2 h3
    by_cases he1 : e = GoError.noResourceFound
    · simp [Resource.getById, h1, h2, h3, he1]
    · by_cases he2 : e = GoError.noResourceAccess <;>
        simp [Resource.getById, h1, h2, h3, he1, he2]
  · intro h
    simp [Resource.writeById, h]
  · intro h1 h2
    simp [Resource.writeById, h1, h2]
  · intro dto h1 h2 h3
    simp [Resource.writeById, h1, h2, h3]
  · intro f i dto ops h1 h2 h3 h4 h5
    by_cases he1 : e = GoError.noResourceFound
    · simp [Resource.writeById, h1, h2, h3, h4, h5, he1]
    · by_cases he2 : e = GoError.noResourceAccess <;>
        simp [Resource.writeById, h1, h2, h3, h4, h5, he1, he2]
  · intro nw i h
    simp [defaultWriteByIdQuery, h]
  · intro h1 h2 h3
    simp [Resource.create, h1, h2, h3]
  · intro h1 h2 h3 h4
    simp [Resource.create, h1, h2, h3, h4]
  · intro dto h1 h2 h3 h4 h5
    simp [Resource.create, h1, h2, h3, h4, h5]
  · intro dto m h1 h2 h3 h4 h5 h6
    simp [Resource.create, h1, h2, h3, h4, h5, h6]
  · intro h
    simp [Resource.deleteById, h]
  · intro f i ops h1 h2 h3 h4
    by_cases he1 : e = GoError.noResourceFound
    · simp [Resource.deleteById, h1, h2, h3, h4, he1]
    · by_cases he2 : e = GoError.noResourceAccess <;>
        simp [Resource.deleteById, h1, h2, h3, h4, he1, he2]

/-- Claim C1, witness: a list-all query error of ErrorNoResourceAccess is
answered with 500 ErrorDatabase, and an unparsable id is answered with 400
ErrorInvalidID. -/
theorem claim_C1_witness :
    (accessErrRes.getAll ctxId1 dbOne).1 = Res.FailCode 500 GoError.database ∧
    (emptyRes.getById badIdCtx dbOne).1 = Res.FailCode 400 GoError.invalidID := by
  constructor
  · have h := (claim_C1 accessErrRes ctxId1 dbOne GoError.noResourceAccess patchKeep).1
      accessErrQ [] rfl rfl rfl
    simpa using h
  · exact (claim_C1 emptyRes badIdCtx dbOne GoError.database patchKeep).2.1 (by decide)

/-- Claim C1, counterexample to the original statement: an update request
whose struct patching fails is answered with 500 ErrorDatabase, not with
400 ErrorInvalidData as claimed (the default write query reports the patch
failure as ErrorInvalidData, which the handler's mapping sends to the
catch-all 500 branch). -/
theorem claim_C1_counterexample :
    (patchFailReg.resource.writeById ctxId1 dbOne).1
        = Res.FailCode 500 GoError.database ∧
    (patchFailReg.resource.writeById ctxId1 dbOne).1
        ≠ Res.FailCode 400 GoError.invalidData := by
  decide

/-- Claim C2 (code bug witness): on a delete request whose configured
authorization predicate returns false, the handler returns the raw
`ErrorNoResourceAccess` value to the framework — echo then renders its
generic error response — instead of an HTTP 403 failure envelope; no
database write is performed. -/
theorem claim_C2 :
    denyDeleteReg.resource.deleteById ctxId1 dbOne
        = (HttpOut.rawError GoError.noResourceAccess, []) ∧
    (denyDeleteReg.resource.deleteById ctxId1 dbOne).1
        ≠ Res.FailCode 403 GoError.noResourceAccess := by
  decide

/-- Claim C4: for every resource, `Register` adds exactly five routes under
the group named after the resource — GET "" (list-all), GET "/:id"
(get-by-id), PUT "/:id" (update), POST "" (create) and DELETE "/:id"
(delete) — each carrying the resource's configured middlewares. -/
theorem claim_C4 {T Dto : Type} [Inhabited T] (r : Resource T Dto)
    (patchFn : T → Dto → Option T) (b : Bool) :
    (r.Register patchFn b).routes =
      [ ⟨Method.get, r.name, "", r.middlewares⟩,
        ⟨Method.get, r.name, "/:id", r.middlewares⟩,
        ⟨Method.put, r.name, "/:id", r.middlewares⟩,
        ⟨Method.post, r.name, "", r.middlewares⟩,
        ⟨Method.delete, r.name, "/:id", r.middlewares⟩ ] :=
  rfl

/-- Claim C6: every success response built by `res.Ok` or `res.OkCode` is an
envelope with Success true, empty Message and the payload as Data; every
failure response built by `res.FailCode` or `res.Fail` has Success false,
nil Data and the supplied error's text as Message, sent with the supplied
code (500 for `Fail`). -/
theorem claim_C6 {T : Type} (m : Payload T) (code : Nat) (e : GoError) :
    Res.Ok m = HttpOut.json 200 ⟨true, "", m⟩
  ∧ Res.OkCode code m = HttpOut.json code ⟨true, "", m⟩
  ∧ (Res.FailCode code e : HttpOut T) = HttpOut.json code ⟨false, e.text, Payload.nil⟩
  ∧ (Res.Fail e : HttpOut T) = HttpOut.json 500 ⟨false, e.text, Payload.nil⟩ :=
  ⟨rfl, rfl, rfl, rfl⟩

/-- Claim C3: a query function set through `OverrideListAllQuery`,
`OverrideListByIdQuery` or `OverrideDeleteByIdQuery` before `Register` is
still the query function in use after `Register` returns; `Register`
installs its default query functions only for the query fields that are
nil. -/
theorem claim_C3 {T Dto : Type} [Inhabited T] (r : Resource T Dto)
    (patchFn : T → Dto → Option T) (b : Bool) :
    (∀ f, ((r.OverrideListAllQuery f).Register patchFn b).resource.listAllQuery = some f)
  ∧ (∀ f, ((r.OverrideListByIdQuery f).Register patchFn b).resource.listByIdQuery = some f)
  ∧ (∀ f, ((r.OverrideDeleteByIdQuery f).Register patchFn b).resource.deleteByIdQuery = some f)
  ∧ (r.listAllQuery = none →
      (r.Register patchFn b).resource.listAllQuery = some defaultListAllQuery)
  ∧ (r.listByIdQuery = none →
      (r.Register patchFn b).resource.listByIdQuery
        = some (defaultListByIdQuery r.canListById))
  ∧ (r.writeByIdQuery = none →
      (r.Register patchFn b).resource.writeByIdQuery
        = some (defaultWriteByIdQuery r.canWriteById patchFn))
  ∧ (r.deleteByIdQuery = none →
      (r.Register patchFn b).resource.deleteByIdQuery = some defaultDeleteByIdQuery) := by
  refine ⟨?_, ?_, ?_, ?_, ?_, ?_, ?_⟩ <;>
    intros <;>
    simp [Resource.Register, Resource.OverrideListAllQuery,
      Resource.OverrideListByIdQuery, Resource.OverrideDeleteByIdQuery, *]

/-- Claim C3, witness: a concrete override survives registration, and a nil
query field receives the default. -/
theorem claim_C3_witness :
    ((emptyRes.OverrideListAllQuery accessErrQ).Register patchKeep true).resource.listAllQuery
        = some accessErrQ ∧
    (emptyRes.Register patchKeep true).resource.listAllQuery = some defaultListAllQuery :=
  ⟨(claim_C3 emptyRes patchKeep true).1 accessErrQ,
   (claim_C3 emptyRes patchKeep true).2.2.2.1 rfl⟩

/-- Claim C5: when `Config.DSN` is non-empty and the connection succeeds,
`Server.Init` sets up the database and auto-migrates every model passed to
`New`; when the DSN is empty, database setup and migration are skipped;
independently, `Resource.Register` triggers auto-migration of the resource
model exactly when the database is initialized. -/
theorem claim_C5 {α : Type} (config : Config) (k : Nat) (models : List α) (ok : Bool) :
    (config.DSN ≠ "" → ok = true →
      ((New config k models).Init ok).dbSetupAttempted = true ∧
      ((New config k models).Init ok).dbInitialized = true ∧
      ((New config k models).Init ok).migratedModels = models)
  ∧ (config.DSN = "" →
      ((New config k models).Init ok).dbSetupAttempted = false ∧
      ((New config k models).Init ok).migratedModels = [])
  ∧ (∀ (T Dto : Type) (_instT : Inhabited T) (r : Resource T Dto)
      (patchFn : T → Dto → Option T) (dbInit : Bool),
      (r.Register patchFn dbInit).migrated = dbInit) := by
  refine ⟨?_, ?_, ?_⟩
  · intro hd hok
    subst hok
    simp [New, Server.Init, hd]
  · intro hd
    simp [New, Server.Init, hd]
  · intro T Dto _inst r patchFn dbInit
    rfl

/-- Claim C5, witness: a concrete non-empty DSN migrates the models list, a
concrete empty DSN skips setup, and a concrete registration with an
initialized database migrates the model type. -/
theorem claim_C5_witness :
    ((New { DSN := "host=localhost" } 0 [7]).Init true).migratedModels = [7] ∧
    ((New ({} : Config) 0 ([] : List Nat)).Init true).dbSetupAttempted = false ∧
    ((emptyRes.CanDeleteById (fun _ _ => false)).Register patchKeep true).migrated = true :=
  ⟨((claim_C5 { DSN := "host=localhost" } 0 [7] true).1 (by decide) rfl).2.2,
   ((claim_C5 ({} : Config) 0 ([] : List Nat) true).2.1 rfl).1,
   (claim_C5 ({} : Config) 0 ([] : List Nat) true).2.2 Nat Unit inferInstance
     (emptyRes.CanDeleteById (fun _ _ => false)) patchKeep true⟩

/-- Claim C7 (amended): on an update request whose id matches no existing
record, when the access predicate (if any) accepts the zero value and
struct patching succeeds, the default write query invokes `Save` on the
patched entity before checking the lookup error, so a database write
occurs; the handler then responds 500 Internal Server Error with
ErrorDatabase (the raw gorm record-not-found error is never translated to
ErrorNoResourceFound, so the response is not 404); the error response is
not atomic with respect to database state. -/
theorem claim_C7 {T Dto : Type} [Inhabited T] (r : Resource T Dto)
    (recs : List (Nat × T)) (cw : Option (Ctx Dto → T → Bool))
    (patchFn : T → Dto → Option T) (c : Ctx Dto) (i : Int) (dto : Dto) (patched : T)
    (hbt : r.writeBindType = some ())
    (hbind : c.bindResult = some dto)
    (hid : atoi c.paramId = some i)
    (hq : r.writeByIdQuery = some (defaultWriteByIdQuery cw patchFn))
    (hacc : ∀ p, cw = some p → p c default = true)
    (hmiss : recs.find? (fun pr => pr.1 = intToUint i) = none)
    (hpatch : patchFn default dto = some patched) :
    r.writeById c (dbFromRecords recs) =
      (Res.FailCode 500 GoError.database, [DbOp.save patched]) := by
  cases cw with
  | none =>
    simp [Resource.writeById, hbt, hbind, hid, hq, defaultWriteByIdQuery,
      dbFromRecords, hmiss, hpatch]
  | some p =>
    have hp : p c default = true := hacc p rfl
    simp [Resource.writeById, hbt, hbind, hid, hq, defaultWriteByIdQuery,
      dbFromRecords, hmiss, hpatch, hp]

/-- Claim C7, witness: a concrete update of the missing id 1 in an empty
database performs a save of the patched zero value and answers 500
ErrorDatabase. -/
theorem claim_C7_witness :
    writeDefaultRes.writeById ctxId1 (dbFromRecords [])
      = (Res.FailCode 500 GoError.database, [DbOp.save 0]) :=
  claim_C7 writeDefaultRes [] none patchKeep ctxId1 1 () 0 rfl rfl (by decide) rfl
    (fun p h => by cases h) rfl rfl

/-- Claim C7, counterexample to the original statement: in the concrete
run above the write occurs, but the handler answers 500 ErrorDatabase, not
404 Not Found as the claim states. -/
theorem claim_C7_counterexample :
    writeMissReg.resource.writeById ctxId1 dbEmpty
        = (Res.FailCode 500 GoError.database, [DbOp.save 0]) ∧
    (writeMissReg.resource.writeById ctxId1 dbEmpty).1
        ≠ Res.FailCode 404 GoError.noResourceFound := by
  decide

/-- Claim C8: on a get-by-id request whose id matches no record, the
default list-by-id query evaluates a configured canListById predicate on
the zero value of T before the not-found check, so a rejecting predicate
makes the handler answer 403 Forbidden rather than 404 Not Found; the 404
answer occurs exactly when the predicate accepts the zero value. -/
theorem claim_C8 {T Dto : Type} [Inhabited T] (r : Resource T Dto)
    (p : Ctx Dto → T → Bool) (recs : List (Nat × T)) (c : Ctx Dto) (n : Int)
    (hq : r.listByIdQuery = some (defaultListByIdQuery (some p)))
    (hid : atoi c.paramId = some n)
    (hmiss : recs.find? (fun pr => pr.1 = intToUint n) = none) :
    (r.getById c (dbFromRecords recs)).1 =
      if p c default then Res.FailCode 404 GoError.noResourceFound
      else Res.FailCode 403 GoError.noResourceAccess := by
  have hfirst : (dbFromRecords recs).firstById (intToUint n)
      = (default, ⟨some GoError.gormRecordNotFound⟩) := by
    simp [dbFromRecords, hmiss]
  by_cases hp : p c default <;>
    simp [Resource.getById, hq, hid, defaultListByIdQuery, hfirst, hp]

/-- Claim C8, witness: with a predicate rejecting everything and an empty
database, a get-by-id request for the missing id 1 answers 403 Forbidden,
not 404. -/
theorem claim_C8_witness :
    (denyZeroRes.getById ctxId1 (dbFromRecords [])).1
      = Res.FailCode 403 GoError.noResourceAccess := by
  have h := claim_C8 denyZeroRes (fun _ _ => false) [] ctxId1 1 rfl (by decide) rfl
  simpa using h

/-- Claim C10: `Start` dispatches on the autoTls flag — false starts a plain
HTTP listener on the given address, true starts an HTTPS server whose
autocert host policy is exactly the configured domains list, with a
30-second read timeout. -/
theorem claim_C10 (address cert pkey : String) (domains : List String) :
    Start address false cert pkey domains = StartAction.insecure address
  ∧ Start address true cert pkey domains
      = StartAction.autoTLS address domains 30 cert pkey :=
  ⟨rfl, rfl⟩

end Minimal
